import Mathlib

/-!
Shallow embedding of the break scheduler in `src/app/main/lib/breaks.ts`.

Modelling conventions:
* Wall-clock instants (JS `Date` / moment values) are modelled as `Nat`
  epoch seconds; the sub-second precision of JS timestamps plays no role in
  the scheduler logic, which works at second granularity
  (`(+now - +t) / 1000` with `toFixed(0)`).
* The module-level mutable variables (`breakTime`, `havingBreak`,
  `postponedCount`, `idleStart`, `lockStart`, `lastTick`) form the record
  `SchedulerState`; every function that mutates them takes and returns it.
* `getSettings()` returns the current `Settings` snapshot; within one
  operation the snapshot is assumed stable, so the snapshot is passed as an
  explicit argument.
* Calls to external collaborators (`showNotification`, `sendIpc` gong
  requests, `buildTray`, `createBreakWindows`, `setTimeout`/`clearTimeout`
  on the 5-second popup warning timer) are recorded as a list of `Effect`
  values in the order they are issued.
* `moment().add(h, 'hours').add(m, 'minutes').add(s, 'seconds')` adds fixed
  offsets on the epoch-seconds timeline, i.e. `h*3600 + m*60 + s` seconds.
* The `powerMonitor.getSystemIdleState` query made at the start of a tick
  (inside `checkIdle`, reached from `checkShouldHaveBreak`) may raise; the
  flag `Env.idleStateFault` injects such an exception. `tick` wraps its body
  in `try { ... } finally { lastTick = new Date() }` — note the source has a
  `finally` clause but no `catch`, so an exception runs the `finally` block
  and then continues to propagate; `TickResult.thrown = true` records that
  the exception escaped `tick`.
-/

/-- The hour/minute/second fields of a `Date` read off a stored duration
setting (`settings.breakFrequency`, `settings.postponeLength`,
`settings.idleResetLength`, `settings.breakLength`). -/
structure Duration where
  hours : Nat
  minutes : Nat
  seconds : Nat
  deriving DecidableEq, Repr

/-- The hour/minute fields of a working-hours boundary
(`settings.workingHoursFrom` / `settings.workingHoursTo`); their seconds
field is discarded by the source (`.set('seconds', 0)`). -/
structure ClockTime where
  hours : Nat
  minutes : Nat
  deriving DecidableEq, Repr

/-- `NotificationType` from `types/settings`. -/
inductive NotificationType where
  | Notification
  | Popup
  deriving DecidableEq, Repr

/-- `NotificationClick` from `types/settings`. -/
inductive NotificationClick where
  | Skip
  | Postpone
  deriving DecidableEq, Repr

/-- `IdleState` (breaks.ts lines 244-249), mirroring Electron's
`powerMonitor.getSystemIdleState` result. -/
inductive IdleState where
  | Active
  | Idle
  | Locked
  | Unknown
  deriving DecidableEq, Repr

/-- The settings snapshot consumed by breaks.ts. `postponeLimit` is a JS
number tested for truthiness (`!settings.postponeLimit`); `0` models the
unset/falsy case. -/
structure Settings where
  breaksEnabled : Bool
  breakFrequency : Duration
  breakLength : Duration
  postponeLength : Duration
  postponeLimit : Nat
  idleResetEnabled : Bool
  idleResetLength : Duration
  idleResetNotification : Bool
  gongEnabled : Bool
  workingHoursEnabled : Bool
  workingHoursFrom : ClockTime
  workingHoursTo : ClockTime
  workingHoursMonday : Bool
  workingHoursTuesday : Bool
  workingHoursWednesday : Bool
  workingHoursThursday : Bool
  workingHoursFriday : Bool
  workingHoursSaturday : Bool
  workingHoursSunday : Bool
  notificationType : NotificationType
  notificationClick : NotificationClick
  breakTitle : String
  breakMessage : String
  deriving DecidableEq, Repr

/-- The module-level mutable state of breaks.ts (lines 13-18). -/
structure SchedulerState where
  breakTime : Option Nat
  havingBreak : Bool
  postponedCount : Nat
  idleStart : Option Nat
  lockStart : Option Nat
  lastTick : Option Nat
  deriving DecidableEq, Repr

/-- The environment a single scheduler operation observes: the current
instant (`new Date()` / `moment()`), today's weekday as returned by moment's
`day()` (0 = Sunday .. 6 = Saturday), the current time of day used by the
working-hours comparison, the `powerMonitor` idle state answer, and the
fault-injection flag for that query. -/
structure Env where
  now : Nat
  day : Fin 7
  nowHour : Nat
  nowMinute : Nat
  nowSecond : Nat
  idleState : IdleState
  idleStateFault : Bool
  deriving DecidableEq, Repr

/-- Requests issued to external collaborators, in order. -/
inductive Effect where
  | showNotification (title : String) (body : Option String)
  | playStartGong
  | buildTray
  | createBreakWindows
  | scheduleBreakTimeout
  | clearBreakTimeout
  deriving DecidableEq, Repr

/-- `zeroPad` (breaks.ts lines 38-41). -/
def zeroPad (n : Nat) : String :=
  let s := toString n
  if s.length = 1 then "0" ++ s else s

/-- Field-wise total of a duration in seconds; the value of
`h*60*60 + m*60 + s` before the `|| 1` correction, and also the net offset
of the moment field-wise `.add` chain. -/
def durationSeconds (d : Duration) : Nat :=
  d.hours * 60 * 60 + d.minutes * 60 + d.seconds

/-- `getSeconds` (breaks.ts lines 43-49): total seconds of the duration's
fields, with `|| 1` turning a zero result into 1. -/
def getSeconds (d : Duration) : Nat :=
  let t := durationSeconds d
  if t = 0 then 1 else t

/-- `getIdleResetSeconds` (breaks.ts lines 51-54). -/
def getIdleResetSeconds (st : Settings) : Nat :=
  getSeconds st.idleResetLength

/-- `getBreakSeconds` (breaks.ts lines 56-59). -/
def getBreakSeconds (st : Settings) : Nat :=
  getSeconds st.breakFrequency

/-- `createIdleNotification` (breaks.ts lines 61-89), as the list of
requests it issues; it reads but does not mutate state. `idleStart` is the
recorded idle start it formats. -/
def createIdleNotification (st : Settings) (env : Env) (idleStart : Nat) :
    List Effect :=
  if !st.idleResetEnabled then []
  else
    let idleSeconds0 := env.now - idleStart
    let idleMinutes0 := if idleSeconds0 > 60 then idleSeconds0 / 60 else 0
    let idleSeconds1 :=
      if idleSeconds0 > 60 then idleSeconds0 - idleMinutes0 * 60
      else idleSeconds0
    let idleHours := if idleMinutes0 > 60 then idleMinutes0 / 60 else 0
    let idleMinutes1 :=
      if idleMinutes0 > 60 then idleMinutes0 - idleHours * 60
      else idleMinutes0
    if st.idleResetNotification then
      [Effect.showNotification "Break countdown reset"
        (some ("Idle for " ++ zeroPad idleHours ++ ":" ++
          zeroPad idleMinutes1 ++ ":" ++ zeroPad idleSeconds1))]
    else []

/-- `createBreak` (breaks.ts lines 91-112). If an idle period is recorded it
first emits the idle-reset notice and clears `idleStart` and
`postponedCount`; then it arms `breakTime = now + freq` (field-wise add of
the postpone length or break frequency) and refreshes the tray. -/
def createBreak (st : Settings) (env : Env) (isPostpone : Bool)
    (s : SchedulerState) : SchedulerState × List Effect :=
  let (s1, eff1) :=
    match s.idleStart with
    | some t =>
        ({ s with idleStart := none, postponedCount := 0 },
         createIdleNotification st env t)
    | none => (s, [])
  let freq := if isPostpone then st.postponeLength else st.breakFrequency
  let s2 := { s1 with breakTime := some (env.now + durationSeconds freq) }
  (s2, eff1 ++ [Effect.buildTray])

/-- `beginPopupBreak` (breaks.ts lines 114-125). -/
def beginPopupBreak (st : Settings) (env : Env) (s : SchedulerState) :
    SchedulerState × List Effect :=
  ({ s with breakTime := some env.now },
   Effect.createBreakWindows ::
     (if st.gongEnabled then [Effect.playStartGong] else []))

/-- `endPopupBreak` (breaks.ts lines 127-142): acts only when `breakTime`
is set (a moment object is always truthy). -/
def endPopupBreak (st : Settings) (s : SchedulerState) :
    SchedulerState × List Effect :=
  match s.breakTime with
  | some _ =>
      ({ s with breakTime := none, havingBreak := false, postponedCount := 0 },
       if st.gongEnabled then [Effect.playStartGong] else [])
  | none => (s, [])

/-- `allowSkip` as computed in `doBreak` (breaks.ts line 166): the
`notificationClick === NotificationClick.Skip` test. -/
def allowSkipOf (st : Settings) : Bool :=
  match st.notificationClick with
  | NotificationClick.Skip => true
  | _ => false

/-- `allowPostpone` as computed in `doBreak` (breaks.ts lines 167-170),
from the snapshot and the `postponedCount` at that moment:
`notificationClick === Postpone && (!postponeLimit || postponedCount <
postponeLimit)`. -/
def allowPostponeOf (st : Settings) (postponedCount : Nat) : Bool :=
  (match st.notificationClick with
   | NotificationClick.Postpone => true
   | _ => false) &&
    (st.postponeLimit == 0 || decide (postponedCount < st.postponeLimit))

/-- The click handler `doBreak` installs on the pre-break warning
notification (breaks.ts lines 181-192). `allowSkip` / `allowPostpone` are
the booleans captured by the closure when `doBreak` ran; `s` is the state
when the user clicks. Cancelling the 5-second `setTimeout` is the
`clearBreakTimeout` effect. -/
def preBreakClick (st : Settings) (env : Env)
    (allowSkip allowPostpone : Bool) (s : SchedulerState) :
    SchedulerState × List Effect :=
  if allowSkip then
    ({ s with breakTime := none, havingBreak := false },
     [Effect.clearBreakTimeout])
  else if allowPostpone then
    let s1 := { s with postponedCount := s.postponedCount + 1,
                       havingBreak := false }
    let (s2, eff) := createBreak st env true s1
    (s2, Effect.clearBreakTimeout :: eff)
  else (s, [])

/-- `doBreak` (breaks.ts lines 144-195). In `Notification` mode the break
is instantaneous: notify, optionally gong, drop `havingBreak` and re-arm
via `createBreak()`. In `Popup` mode: schedule the 5-second timer towards
`beginPopupBreak` and show the pre-break warning whose body depends on the
captured `allowSkip` / `allowPostpone`; the click handler itself is
`preBreakClick`. -/
def doBreak (st : Settings) (env : Env) (s : SchedulerState) :
    SchedulerState × List Effect :=
  let s0 := { s with havingBreak := true }
  match st.notificationType with
  | NotificationType.Notification =>
      let effNotif := [Effect.showNotification st.breakTitle
        (some st.breakMessage)]
      let effGong := if st.gongEnabled then [Effect.playStartGong] else []
      let s1 := { s0 with havingBreak := false }
      let (s2, effCreate) := createBreak st env false s1
      (s2, effNotif ++ effGong ++ effCreate)
  | NotificationType.Popup =>
      let allowSkip := allowSkipOf st
      let allowPostpone := allowPostponeOf st s0.postponedCount
      let body :=
        if allowSkip then some "Click to skip"
        else if allowPostpone then some "Click to postpone"
        else none
      (s0, [Effect.scheduleBreakTimeout,
            Effect.showNotification "Break about to start..." body])

/-- The 1..7 keyed weekday table built in `checkInWorkingHours`
(breaks.ts lines 206-214), looked up with a JS index: a key not in the
table yields `undefined`, which is falsy. -/
def workingDayLookup (st : Settings) (d : Nat) : Bool :=
  match d with
  | 1 => st.workingHoursMonday
  | 2 => st.workingHoursTuesday
  | 3 => st.workingHoursWednesday
  | 4 => st.workingHoursThursday
  | 5 => st.workingHoursFriday
  | 6 => st.workingHoursSaturday
  | 7 => st.workingHoursSunday
  | _ => false

/-- `checkInWorkingHours` (breaks.ts lines 197-242). `env.day` is moment's
`day()` (0 = Sunday .. 6 = Saturday). The from/to instants share today's
date with `now`, so the comparison reduces to seconds-of-day with the
boundaries' seconds zeroed. -/
def checkInWorkingHours (st : Settings) (env : Env) : Bool :=
  if !st.workingHoursEnabled then true
  else
    let isWorkingDay := workingDayLookup st env.day.val
    if !isWorkingDay then false
    else
      let nowSecondsOfDay :=
        env.nowHour * 3600 + env.nowMinute * 60 + env.nowSecond
      let fromSecondsOfDay :=
        st.workingHoursFrom.hours * 3600 + st.workingHoursFrom.minutes * 60
      let toSecondsOfDay :=
        st.workingHoursTo.hours * 3600 + st.workingHoursTo.minutes * 60
      if nowSecondsOfDay < fromSecondsOfDay then false
      else if toSecondsOfDay < nowSecondsOfDay then false
      else true

/-- `checkIdle` (breaks.ts lines 251-279). Returns the boolean result and
the state (it mutates `lockStart`). In the `Locked` branch the
`idleResetEnabled` flag is never consulted. -/
def checkIdle (st : Settings) (env : Env) (s : SchedulerState) :
    Bool × SchedulerState :=
  match env.idleState with
  | IdleState.Locked =>
      match s.lockStart with
      | none => (false, { s with lockStart := some env.now })
      | some t =>
          let lockSeconds := env.now - t
          (decide (lockSeconds > getIdleResetSeconds st), s)
  | state =>
      let s1 := { s with lockStart := none }
      if !st.idleResetEnabled then (false, s1)
      else
        (match state with
         | IdleState.Idle => true
         | _ => false, s1)

/-- `checkShouldHaveBreak` (breaks.ts lines 281-287): evaluates the
working-hours gate, then the idle query (which may move `lockStart`). -/
def checkShouldHaveBreak (st : Settings) (env : Env) (s : SchedulerState) :
    Bool × SchedulerState :=
  let inWorkingHours := checkInWorkingHours st env
  let (idle, s1) := checkIdle st env s
  (!s.havingBreak && st.breaksEnabled && inWorkingHours && !idle, s1)

/-- `checkBreak` (breaks.ts lines 289-295): `now > breakTime` is a JS
relational comparison in which a `null` breakTime coerces to 0. -/
def checkBreak (st : Settings) (env : Env) (s : SchedulerState) :
    SchedulerState × List Effect :=
  if s.breakTime.getD 0 < env.now then doBreak st env s else (s, [])

/-- `startBreakNow` (breaks.ts lines 297-299). -/
def startBreakNow (env : Env) (s : SchedulerState) : SchedulerState :=
  { s with breakTime := some env.now }

/-- Result of one `tick()` call: final state, requests issued, and whether
an exception escaped the call (`thrown = true`: the body raised, the
`finally` block ran, and the exception kept propagating because `tick` has
no `catch`). -/
structure TickResult where
  state : SchedulerState
  effects : List Effect
  thrown : Bool
  deriving DecidableEq, Repr

/-- The body of the `try` block of `tick` (breaks.ts lines 302-356). The
injected fault models the `powerMonitor` query raising at the start of the
first `checkIdle` call, before any state is touched. -/
def tickBody (st : Settings) (env : Env) (s : SchedulerState) : TickResult :=
  if env.idleStateFault then ⟨s, [], true⟩
  else
    let (shouldHaveBreak, s1) := checkShouldHaveBreak st env s
    let secondsSinceLastTick :=
      match s.lastTick with
      | some t => env.now - t
      | none => 0
    let (s2, eff2) :=
      if getBreakSeconds st < secondsSinceLastTick then
        ({ s1 with lockStart := none }, ([] : List Effect))
      else if getIdleResetSeconds st < secondsSinceLastTick then
        let s2a :=
          match s1.idleStart with
          | none => { s1 with lockStart := none, idleStart := s1.lastTick }
          | some _ => s1
        createBreak st env false s2a
      else (s1, [])
    if !shouldHaveBreak && !s2.havingBreak && s2.breakTime.isSome then
      let (idle2, s3) := checkIdle st env s2
      let s3a := if idle2 then { s3 with idleStart := some env.now } else s3
      ⟨{ s3a with breakTime := none }, eff2 ++ [Effect.buildTray], false⟩
    else if shouldHaveBreak && s2.breakTime.isNone then
      let (s4, eff4) := createBreak st env false s2
      ⟨s4, eff2 ++ eff4, false⟩
    else if shouldHaveBreak then
      let (s4, eff4) := checkBreak st env s2
      ⟨s4, eff2 ++ eff4, false⟩
    else ⟨s2, eff2, false⟩

/-- `tick` (breaks.ts lines 301-360): the body wrapped in
`try { ... } finally { lastTick = new Date() }`. The `finally` assignment
runs on the normal path and on the exception path alike; an exception then
continues to propagate (`thrown` unchanged). -/
def tick (st : Settings) (env : Env) (s : SchedulerState) : TickResult :=
  let r := tickBody st env s
  { r with state := { r.state with lastTick := some env.now } }

/-- A concrete settings snapshot for the concrete evaluations below:
breaks every hour, 5-minute idle reset, popup notifications. -/
def baseSettings : Settings where
  breaksEnabled := true
  breakFrequency := ⟨1, 0, 0⟩
  breakLength := ⟨0, 5, 0⟩
  postponeLength := ⟨0, 5, 0⟩
  postponeLimit := 0
  idleResetEnabled := true
  idleResetLength := ⟨0, 5, 0⟩
  idleResetNotification := false
  gongEnabled := false
  workingHoursEnabled := false
  workingHoursFrom := ⟨9, 0⟩
  workingHoursTo := ⟨18, 0⟩
  workingHoursMonday := true
  workingHoursTuesday := true
  workingHoursWednesday := true
  workingHoursThursday := true
  workingHoursFriday := true
  workingHoursSaturday := true
  workingHoursSunday := true
  notificationType := NotificationType.Popup
  notificationClick := NotificationClick.Skip
  breakTitle := "Time for a break!"
  breakMessage := "Rest your eyes. Stretch your legs. Breathe. Relax."

/-- The initial scheduler state (all module variables unset, breaks.ts
lines 13-18). -/
def baseState : SchedulerState where
  breakTime := none
  havingBreak := false
  postponedCount := 0
  idleStart := none
  lockStart := none
  lastTick := none

/-- A concrete environment: an active, unlocked workstation on a Monday
noon. -/
def baseEnv : Env where
  now := 1000000
  day := 1
  nowHour := 12
  nowMinute := 0
  nowSecond := 0
  idleState := IdleState.Active
  idleStateFault := false

/-- `baseSettings` with the pre-break warning click configured to postpone,
limited to 2 postpones. -/
def postponeSettings : Settings :=
  { baseSettings with notificationClick := NotificationClick.Postpone,
                      postponeLimit := 2 }

/-- A state in which the pre-break warning is showing: the 5-second timer
is pending, a break is armed and one postpone has already happened. -/
def warnState : SchedulerState :=
  { baseState with breakTime := some 999, havingBreak := true,
                   postponedCount := 1 }

/-- `warnState` after a second postpone: the configured limit of 2 is
exhausted. -/
def warnState2 : SchedulerState :=
  { baseState with breakTime := some 999, havingBreak := true,
                   postponedCount := 2 }

/-!
Theorems. Each claim of the specification is formalised against the
definitions above; counterexamples are closed evaluations at concrete
inputs.
-/

/-- Claim C6: every invocation of `tick()` sets `lastTickAt` to the current
time as its final action, on every path — including when an exception is
raised during the decision steps (the `finally` block runs in both
cases). -/
theorem tick_always_updates_lastTick (st : Settings) (env : Env)
    (s : SchedulerState) : (tick st env s).state.lastTick = some env.now := by
  simp [tick]

/-- Claim C7: `getSeconds` (the spec's `durationToSeconds`) returns 1 on an
all-zero duration and the exact field total `hours*3600 + minutes*60 +
seconds` on every other duration. -/
theorem getSeconds_zero_guard (d : Duration) :
    (d.hours = 0 ∧ d.minutes = 0 ∧ d.seconds = 0 → getSeconds d = 1) ∧
    (¬(d.hours = 0 ∧ d.minutes = 0 ∧ d.seconds = 0) →
      getSeconds d = d.hours * 3600 + d.minutes * 60 + d.seconds) := by
  unfold getSeconds durationSeconds
  constructor
  · rintro ⟨h1, h2, h3⟩
    simp [h1, h2, h3]
  · intro h
    have hne : d.hours * 60 * 60 + d.minutes * 60 + d.seconds ≠ 0 := by omega
    simp only [hne, if_false]
    ring

/-- Witness for C7 at the all-zero duration and at 1h 2m 3s. -/
theorem getSeconds_zero_guard_witness :
    getSeconds ⟨0, 0, 0⟩ = 1 ∧ getSeconds ⟨1, 2, 3⟩ = 3723 :=
  ⟨(getSeconds_zero_guard ⟨0, 0, 0⟩).1 (by decide),
   (getSeconds_zero_guard ⟨1, 2, 3⟩).2 (by decide)⟩

/-- Claim C9: when no break is armed (`breakTime = none`), `endPopupBreak`
returns the state unchanged and issues no requests at all. -/
theorem endPopupBreak_noop_when_unarmed (st : Settings) (s : SchedulerState)
    (h : s.breakTime = none) : endPopupBreak st s = (s, []) := by
  simp [endPopupBreak, h]

/-- Witness for C9 at the initial state. -/
theorem endPopupBreak_noop_when_unarmed_witness :
    endPopupBreak baseSettings baseState = (baseState, []) :=
  endPopupBreak_noop_when_unarmed baseSettings baseState rfl

/-- Claim C2 (refuted as stated): at this concrete input an exception
raised inside the tick body escapes `tick()` — `thrown = true` records
that the exception kept propagating, because the source wraps the body in
`try`/`finally` with no `catch`. -/
theorem tick_exception_escape_counterexample :
    (tick baseSettings { baseEnv with idleStateFault := true }
      baseState).thrown = true := by decide

/-- Claim C2 as amended: an exception raised inside `tick()`'s body is not
caught and suppressed — it propagates out of `tick()` — but the `finally`
block still updates `lastTickAt` before the exception escapes. -/
theorem tick_exception_propagates (st : Settings) (env : Env)
    (s : SchedulerState) (h : env.idleStateFault = true) :
    (tick st env s).thrown = true ∧
    (tick st env s).state.lastTick = some env.now := by
  constructor <;> simp [tick, tickBody, h]

/-- Witness for the amended C2. -/
theorem tick_exception_propagates_witness :
    (tick baseSettings { baseEnv with idleStateFault := true }
      baseState).thrown = true ∧
    (tick baseSettings { baseEnv with idleStateFault := true }
      baseState).state.lastTick = some 1000000 :=
  tick_exception_propagates baseSettings
    { baseEnv with idleStateFault := true } baseState rfl

/-- Claim C3 (refuted as stated): with `idleResetEnabled = false` and the
system locked for far longer than the idle threshold (lock held since 0,
now 1000000, threshold 300), `checkIdle` returns `true`, not `false`. -/
theorem checkIdle_disabled_lock_counterexample :
    (checkIdle { baseSettings with idleResetEnabled := false }
      { baseEnv with idleState := IdleState.Locked }
      { baseState with lockStart := some 0 }).1 = true := by decide

/-- Claim C3 as amended: with `idleResetEnabled = false`, `checkIdle`
returns false in every non-Locked state and on the first observation of a
lock; but in the Locked state with a recorded lock start the flag is
ignored and `checkIdle` reports idle exactly when the held lock exceeds
`idleResetSeconds`. -/
theorem checkIdle_disabled (st : Settings) (env : Env) (s : SchedulerState)
    (h : st.idleResetEnabled = false) :
    (env.idleState ≠ IdleState.Locked → (checkIdle st env s).1 = false) ∧
    (env.idleState = IdleState.Locked → s.lockStart = none →
      (checkIdle st env s).1 = false) ∧
    (∀ t, env.idleState = IdleState.Locked → s.lockStart = some t →
      ((checkIdle st env s).1 = true ↔ getIdleResetSeconds st < env.now - t)) := by
  refine ⟨?_, ?_, ?_⟩
  · intro hne
    cases hst : env.idleState <;> simp [checkIdle, hst, h]
    exact absurd hst hne
  · intro hst hls
    simp [checkIdle, hst, hls]
  · intro t hst hls
    simp [checkIdle, hst, hls, Nat.lt_iff_add_one_le]

/-- Witness for the amended C3: active state reports false; a long-held
lock reports idle (300-second threshold exceeded). -/
theorem checkIdle_disabled_witness :
    (checkIdle { baseSettings with idleResetEnabled := false } baseEnv
      baseState).1 = false ∧
    ((checkIdle { baseSettings with idleResetEnabled := false }
        { baseEnv with idleState := IdleState.Locked }
        { baseState with lockStart := some 0 }).1 = true ↔
      getIdleResetSeconds { baseSettings with idleResetEnabled := false } <
        1000000 - 0) :=
  ⟨(checkIdle_disabled _ baseEnv baseState rfl).1 (by decide),
   (checkIdle_disabled _ _ _ rfl).2.2 0 rfl rfl⟩

/-- Claim C4 (the claim is right, the code has a bug): moment's `day()`
yields 0 for Sunday, but the weekday table in `checkInWorkingHours` is
keyed 1..7, so on a Sunday the lookup misses (undefined, falsy) and the
function returns false even though `workingHoursSunday` is enabled and the
clock is within the configured hours; the same snapshot at the same clock
time on a Monday returns true, isolating the dead `7:` table entry as the
cause. -/
theorem checkInWorkingHours_sunday_dead :
    checkInWorkingHours { baseSettings with workingHoursEnabled := true }
      { baseEnv with day := 0 } = false ∧
    checkInWorkingHours { baseSettings with workingHoursEnabled := true }
      { baseEnv with day := 1 } = true := by decide

/-- Claim C5 (refuted as stated): `doBreak` (break start / entry into the
Presenting state) does not reset `postponedCount`: in popup mode with a
previously accumulated count of 1 the count is still 1 afterwards. -/
theorem doBreak_keeps_postponedCount_counterexample :
    (doBreak baseSettings baseEnv
      { baseState with postponedCount := 1 }).1.postponedCount ≠ 0 := by
  decide

/-- Claim C5 as amended: `postponedCount` is reset to 0 on break end
(`endPopupBreak` with a break armed) and when `createBreak` consumes a
recorded idle period; `doBreak` itself (popup mode) leaves the count
unchanged. -/
theorem postponedCount_reset_points :
    (∀ (st : Settings) (s : SchedulerState), s.breakTime ≠ none →
      (endPopupBreak st s).1.postponedCount = 0) ∧
    (∀ (st : Settings) (env : Env) (isPostpone : Bool) (s : SchedulerState),
      s.idleStart ≠ none →
      (createBreak st env isPostpone s).1.postponedCount = 0) ∧
    (∀ (st : Settings) (env : Env) (s : SchedulerState),
      st.notificationType = NotificationType.Popup →
      (doBreak st env s).1.postponedCount = s.postponedCount) := by
  refine ⟨?_, ?_, ?_⟩
  · intro st s h
    cases hbt : s.breakTime with
    | none => exact absurd hbt h
    | some b => simp [endPopupBreak, hbt]
  · intro st env isPostpone s h
    cases his : s.idleStart with
    | none => exact absurd his h
    | some t => simp [createBreak, his]
  · intro st env s h
    simp [doBreak, h]

/-- Witness for the amended C5 at concrete states with count 4. -/
theorem postponedCount_reset_points_witness :
    (endPopupBreak baseSettings
      { baseState with breakTime := some 5,
                       postponedCount := 4 }).1.postponedCount = 0 ∧
    (createBreak baseSettings baseEnv false
      { baseState with idleStart := some 7,
                       postponedCount := 4 }).1.postponedCount = 0 ∧
    (doBreak baseSettings baseEnv
      { baseState with postponedCount := 4 }).1.postponedCount = 4 :=
  ⟨postponedCount_reset_points.1 baseSettings _ (by decide),
   postponedCount_reset_points.2.1 baseSettings baseEnv false _ (by decide),
   postponedCount_reset_points.2.2 baseSettings baseEnv _ rfl⟩

/-- Claim C10: when click behavior is Skip, a click on the pre-break
warning cancels the 5-second timer, clears `breakTime` and `havingBreak`,
and changes nothing else — `postponedCount`, `idleStart`, `lockStart` and
`lastTick` are untouched, so an accumulated postpone count survives the
skip. -/
theorem skip_click_clears_break_only (st : Settings) (env : Env)
    (s : SchedulerState)
    (hclick : st.notificationClick = NotificationClick.Skip) :
    preBreakClick st env (allowSkipOf st)
      (allowPostponeOf st s.postponedCount) s =
      ({ s with breakTime := none, havingBreak := false },
       [Effect.clearBreakTimeout]) ∧
    (preBreakClick st env (allowSkipOf st)
      (allowPostponeOf st s.postponedCount) s).1.postponedCount =
        s.postponedCount ∧
    (preBreakClick st env (allowSkipOf st)
      (allowPostponeOf st s.postponedCount) s).1.idleStart = s.idleStart ∧
    (preBreakClick st env (allowSkipOf st)
      (allowPostponeOf st s.postponedCount) s).1.lockStart = s.lockStart ∧
    (preBreakClick st env (allowSkipOf st)
      (allowPostponeOf st s.postponedCount) s).1.lastTick = s.lastTick := by
  have h1 : preBreakClick st env (allowSkipOf st)
      (allowPostponeOf st s.postponedCount) s =
      ({ s with breakTime := none, havingBreak := false },
       [Effect.clearBreakTimeout]) := by
    simp [preBreakClick, allowSkipOf, hclick]
  refine ⟨h1, ?_, ?_, ?_, ?_⟩ <;> rw [h1]

/-- Witness for C10: skipping with one accumulated postpone keeps the
count at 1. -/
theorem skip_click_clears_break_only_witness :
    preBreakClick baseSettings baseEnv (allowSkipOf baseSettings)
      (allowPostponeOf baseSettings warnState.postponedCount) warnState =
      ({ warnState with breakTime := none, havingBreak := false },
       [Effect.clearBreakTimeout]) ∧
    (preBreakClick baseSettings baseEnv (allowSkipOf baseSettings)
      (allowPostponeOf baseSettings warnState.postponedCount)
      warnState).1.postponedCount = 1 :=
  ⟨(skip_click_clears_break_only baseSettings baseEnv warnState rfl).1,
   (skip_click_clears_break_only baseSettings baseEnv warnState rfl).2.1⟩

/-- Claim C8: with click behavior Postpone and `postponeLimit = 2`, a click
after the count has reached 2 neither cancels the 5-second timer nor
changes any state (the popup proceeds); with the count below the limit, or
with no limit set (`postponeLimit = 0`), the click cancels the timer,
increments the count, clears `havingBreak` and re-arms `breakTime` with the
postpone duration. The second part assumes no idle period happens to be
recorded at click time (otherwise `createBreak(true)` additionally consumes
it and zeroes the count). -/
theorem postpone_click_limit (st : Settings) (env : Env) (s : SchedulerState)
    (hclick : st.notificationClick = NotificationClick.Postpone) :
    (st.postponeLimit = 2 → 2 ≤ s.postponedCount →
      preBreakClick st env (allowSkipOf st)
        (allowPostponeOf st s.postponedCount) s = (s, [])) ∧
    ((st.postponeLimit = 0 ∨ s.postponedCount < st.postponeLimit) →
      s.idleStart = none →
      preBreakClick st env (allowSkipOf st)
        (allowPostponeOf st s.postponedCount) s =
        ({ s with postponedCount := s.postponedCount + 1,
                  havingBreak := false,
                  breakTime :=
                    some (env.now + durationSeconds st.postponeLength) },
         [Effect.clearBreakTimeout, Effect.buildTray])) := by
  constructor
  · intro hlim hcount
    have hnot : ¬ (s.postponedCount < st.postponeLimit) := by omega
    have hlim0 : st.postponeLimit ≠ 0 := by omega
    simp [preBreakClick, allowSkipOf, allowPostponeOf, hclick, hnot, hlim0]
  · intro hall hidle
    have hap : allowPostponeOf st s.postponedCount = true := by
      rcases hall with h0 | hlt
      · simp [allowPostponeOf, hclick, h0]
      · simp [allowPostponeOf, hclick, hlt]
    obtain ⟨bt, hv, pc, is, ls, lt⟩ := s
    simp only at hidle
    subst hidle
    simp [preBreakClick, allowSkipOf, hclick, hap, createBreak]

/-- Witness for C8: at the limit (count 2 of 2) the click is inert; below
the limit (count 1 of 2) it postpones by the 5-minute postpone length. -/
theorem postpone_click_limit_witness :
    preBreakClick postponeSettings baseEnv (allowSkipOf postponeSettings)
      (allowPostponeOf postponeSettings warnState2.postponedCount)
      warnState2 = (warnState2, []) ∧
    preBreakClick postponeSettings baseEnv (allowSkipOf postponeSettings)
      (allowPostponeOf postponeSettings warnState.postponedCount)
      warnState =
      ({ warnState with postponedCount := 2, havingBreak := false,
                        breakTime := some 1000300 },
       [Effect.clearBreakTimeout, Effect.buildTray]) :=
  ⟨(postpone_click_limit postponeSettings baseEnv warnState2 rfl).1
      rfl (by decide),
   (postpone_click_limit postponeSettings baseEnv warnState rfl).2
      (Or.inr (by decide)) rfl⟩

/-- Claim C1 (refuted as stated): a tick observing a 500-second gap with a
300-second idle threshold and 3600-second break period does set
`idleStart` to the previous `lastTick` — but the forced `createBreak()`
that follows in the same tick consumes and clears it, so after `tick()`
completes `idleStart` is `none`, not the previous `lastTick` (1000 here);
the break is nonetheless freshly armed (5100 = 1500 + 3600). -/
theorem tick_gap_claim_counterexample :
    (tick baseSettings { baseEnv with now := 1500 }
      { baseState with breakTime := some 1200,
                       lastTick := some 1000 }).state.idleStart ≠ some 1000 ∧
    (tick baseSettings { baseEnv with now := 1500 }
      { baseState with breakTime := some 1200,
                       lastTick := some 1000 }).state.idleStart = none ∧
    (tick baseSettings { baseEnv with now := 1500 }
      { baseState with breakTime := some 1200,
                       lastTick := some 1000 }).state.breakTime =
      some 5100 := by
  decide

/-- Claim C1 as amended: under the claim's scenario (gap of 500 seconds,
`idleResetSeconds = 300`, `breakSeconds = 3600`, no idle period recorded,
active unlocked user, breaks enabled, working-hours gate off), after
`tick()` the idle period has been consumed (`idleStart = none` — it was
transiently the previous `lastTick` and was cleared by the forced
`createBreak()`), and a break is freshly armed at `now + 3600`, a strictly
future timestamp; no exception escapes. -/
theorem tick_gap_idle_consumed (st : Settings) (env : Env)
    (s : SchedulerState) (t : Nat)
    (hfault : env.idleStateFault = false)
    (hstate : env.idleState = IdleState.Active)
    (hlast : s.lastTick = some t)
    (hnow : env.now = t + 500)
    (hidleReset : getIdleResetSeconds st = 300)
    (hbreakSec : getBreakSeconds st = 3600)
    (hidle : s.idleStart = none)
    (hhaving : s.havingBreak = false)
    (hen : st.breaksEnabled = true)
    (hwh : st.workingHoursEnabled = false) :
    (tick st env s).state.idleStart = none ∧
    (tick st env s).state.breakTime = some (env.now + 3600) ∧
    env.now < env.now + 3600 ∧
    (tick st env s).thrown = false := by
  have hdur : durationSeconds st.breakFrequency = 3600 := by
    have hb := hbreakSec
    unfold getBreakSeconds getSeconds at hb
    by_cases h0 : durationSeconds st.breakFrequency = 0
    · rw [h0] at hb; simp at hb
    · simpa [h0] using hb
  have hnb : ¬ (t + 500 + 3600 < t + 500) := by omega
  obtain ⟨now, day, nh, nm, ns, ist, isf⟩ := env
  obtain ⟨bt, hv, pc, is, ls, lt⟩ := s
  simp only at hfault hstate hlast hnow hidle hhaving
  subst hfault hstate hlast hnow hidle hhaving
  simp [tick, tickBody, checkShouldHaveBreak, checkIdle, checkInWorkingHours,
    checkBreak, createBreak, hen, hwh, hidleReset, hbreakSec, hdur,
    Nat.add_sub_cancel_left, hnb]

/-- Witness for the amended C1: previous tick at 1000, now 1500, break armed
for 1200; afterwards the idle period is consumed and the break re-armed for
5100. -/
theorem tick_gap_idle_consumed_witness :
    (tick baseSettings { baseEnv with now := 1500 }
      { baseState with breakTime := some 1200,
                       lastTick := some 1000 }).state.idleStart = none ∧
    (tick baseSettings { baseEnv with now := 1500 }
      { baseState with breakTime := some 1200,
                       lastTick := some 1000 }).state.breakTime =
      some (1500 + 3600) ∧
    (1500 : Nat) < 1500 + 3600 ∧
    (tick baseSettings { baseEnv with now := 1500 }
      { baseState with breakTime := some 1200,
                       lastTick := some 1000 }).thrown = false :=
  tick_gap_idle_consumed baseSettings { baseEnv with now := 1500 }
    { baseState with breakTime := some 1200, lastTick := some 1000 } 1000
    rfl rfl rfl rfl rfl rfl rfl rfl rfl rfl
